import Mathlib

/-!
# MAX86150 register-level driver (MAX86150.c / MAX86150.h)

A shallow embedding of the driver functions `max86150_init` and `max86150_fetch_data`
and of the register bus they talk to.

* Machine integers are natural numbers; the places where C narrows a value
  (the `uint8_t value` parameter of `i2c_reg_write_byte_dt`, the `uint8_t`
  counter `num_channels`, the `uint32_t fifo_data`) carry an explicit `%`.
* The register bus is an external collaborator.  It is modelled as a
  deterministic function of the transactions seen so far, and every driver
  function threads the transaction history through explicitly.
* `LOG_ERR` has no effect on control flow and is not modelled.
* The reset poll of `max86150_init` is an unbounded `do … while`; the model
  bounds the number of polls it follows by a fuel argument and reports
  `ret = none` when the fuel is used up while the reset bit is still set.
-/

namespace MAX86150

/-! ## Register map and masks (MAX86150.h) -/

abbrev MAX86150_REG_FIFO_DATA : Nat := 0x07
abbrev MAX86150_REG_FIFO_CONFIG : Nat := 0x08
abbrev MAX86150_REG_FIFO_DATA_CONTROL1 : Nat := 0x09
abbrev MAX86150_REG_FIFO_DATA_CONTROL2 : Nat := 0x0A
abbrev MAX86150_REG_SYSTEM_CONTROL : Nat := 0x0D
abbrev MAX86150_REG_PPG_CONFIG1 : Nat := 0x0E
abbrev MAX86150_REG_PPG_CONFIG2 : Nat := 0x0F
abbrev MAX86150_REG_LED1_PA : Nat := 0x11
abbrev MAX86150_REG_LED2_PA : Nat := 0x12
abbrev MAX86150_REG_LED_RANGE : Nat := 0x14
abbrev MAX86150_REG_LED_PILOT_PA : Nat := 0x15
abbrev MAX86150_REG_ECG_CONFIG1 : Nat := 0x3C
abbrev MAX86150_REG_ECG_CONFIG3 : Nat := 0x3E
abbrev MAX86150_REG_ID : Nat := 0xFF

abbrev MAX86150_PART_ID : Nat := 0x1E

abbrev MAX86150_SYS_CTRL_RESET_MASK : Nat := 0x01
abbrev MAX86150_FIFO_ROLLS_ON_FULL_MASK : Nat := 1 <<< 4
abbrev MAX86150_FIFO_ENABLE_MASK : Nat := 0x04
abbrev MAX86150_PPG_FIFO_DATA_MASK : Nat := (1 <<< 19) - 1

/-! ## Data model -/

/-- The `struct max86150_config` of the header.  The enumeration-typed fields
are kept as the integers C stores for them; `slot` is the array `slot[4]`. -/
structure max86150_config where
  IR_LED_PA : Nat
  RED_LED_PA : Nat
  PILOT_LED_PA : Nat
  slot : Fin 4 → Nat
  adc_range : Nat
  ppg_sample_rate : Nat
  ppg_pulse_width : Nat
  ppg_sample_avg : Nat
  IR_current : Nat
  Red_current : Nat
  ECG_sample_rate : Nat
  ECG_PGA_gain : Nat
  ECG_IA_gain : Nat

/-- The `struct max86150_data` of the header: `uint32_t channel_data[4]` and
`uint8_t num_channels`. -/
structure max86150_data where
  channel_data : Fin 4 → Nat
  num_channels : Nat

/-- A configuration is valid when every field fits the bit width of the
register sub-field it is written to (register map of the header and the
packing expressions of `max86150_init`). -/
def max86150_config.Valid (c : max86150_config) : Prop :=
  (∀ i, c.slot i < 16) ∧ c.adc_range < 4 ∧ c.ppg_sample_rate < 16 ∧
  c.ppg_pulse_width < 4 ∧ c.ppg_sample_avg < 256 ∧ c.IR_LED_PA < 256 ∧
  c.RED_LED_PA < 256 ∧ c.Red_current < 4 ∧ c.IR_current < 4 ∧
  c.PILOT_LED_PA < 256 ∧ c.ECG_sample_rate < 256 ∧ c.ECG_PGA_gain < 4 ∧
  c.ECG_IA_gain < 4

/-! ## The register bus -/

/-- One completed bus transaction, with the request and what the bus
answered: the return code (`0` is success) and the data it delivered. -/
inductive Event where
  | read (reg : Nat) (rc : Int) (val : Nat)
  | write (reg : Nat) (val : Nat) (rc : Int)
  | burst (reg : Nat) (len : Nat) (rc : Int) (bytes : List Nat)
  deriving DecidableEq

/-- The register bus behind `dev_i2c`.  Each answer may depend on all the
transactions completed so far.  A return code other than `0` is a transport
error; the values delivered are the bytes the bus stores through the
`uint8_t` pointers it is handed. -/
structure Bus where
  ready : Bool
  reg_read : List Event → Nat → Int × Nat
  reg_write : List Event → Nat → Nat → Int
  burst_read : List Event → Nat → Nat → Int × List Nat

/-- `device_is_ready(dev_i2c->bus)`. -/
def device_is_ready (bus : Bus) : Bool := bus.ready

/-- `i2c_reg_read_byte_dt`: return code, byte stored through the out
pointer, and the extended history. -/
def i2c_reg_read_byte_dt (bus : Bus) (tr : List Event) (reg : Nat) :
    Int × Nat × List Event :=
  let a := bus.reg_read tr reg
  (a.1, a.2, tr ++ [Event.read reg a.1 a.2])

/-- `i2c_reg_write_byte_dt`: the value is narrowed to the `uint8_t`
parameter before it goes on the bus. -/
def i2c_reg_write_byte_dt (bus : Bus) (tr : List Event) (reg val : Nat) :
    Int × List Event :=
  let rc := bus.reg_write tr reg (val % 256)
  (rc, tr ++ [Event.write reg (val % 256) rc])

/-- `i2c_burst_read_dt`: return code, the bytes placed in the buffer, and
the extended history. -/
def i2c_burst_read_dt (bus : Bus) (tr : List Event) (reg len : Nat) :
    Int × List Nat × List Event :=
  let a := bus.burst_read tr reg len
  (a.1, a.2, tr ++ [Event.burst reg len a.1 a.2])

/-! ## max86150_init -/

/-- Outcome of a driver call: the value returned (`none` only when the
reset poll was still running when the fuel ran out), the bus history at that
point, and the device state owned by the caller. -/
structure Result where
  ret : Option Int
  trace : List Event
  data : max86150_data

/-- The `do … while (mode_cfg & MAX86150_SYS_CTRL_RESET_MASK)` loop of
`max86150_init`, following at most `fuel` polls.  `some 0`: the reset bit
read clear; `some (-1)`: a poll read failed; `none`: out of fuel. -/
def resetPoll (bus : Bus) : Nat → List Event → Option Int × List Event
  | 0, tr => (none, tr)
  | fuel + 1, tr =>
    let r := i2c_reg_read_byte_dt bus tr MAX86150_REG_SYSTEM_CONTROL
    if r.1 ≠ 0 then (some (-1), r.2.2)
    else if r.2.1 &&& MAX86150_SYS_CTRL_RESET_MASK ≠ 0 then resetPoll bus fuel r.2.2
    else (some 0, r.2.2)

/-- The channel-counting loop at the end of `max86150_init`:
`num_channels = 0; for (i = 0; i < 4; i++) if (slot[i] != 0) num_channels++;`
on a `uint8_t` counter. -/
def countChannels (config : max86150_config) : Nat :=
  (List.finRange 4).foldl
    (fun n i => if config.slot i ≠ 0 then (n + 1) % 256 else n) 0

/-- The function `max86150_init` of MAX86150.c, started on a bus whose
history is `tr`. -/
def max86150_init (bus : Bus) (tr : List Event) (config : max86150_config)
    (data : max86150_data) (fuel : Nat) : Result :=
  -- Check if I2C device is ready
  if device_is_ready bus = false then ⟨some (-1), tr, data⟩ else
  -- Read device part ID
  let id := i2c_reg_read_byte_dt bus tr MAX86150_REG_ID
  if id.1 ≠ 0 then ⟨some (-1), id.2.2, data⟩ else
  -- Check if part ID is correct
  if id.2.1 ≠ MAX86150_PART_ID then ⟨some (-1), id.2.2, data⟩ else
  -- Reset MAX86150 before configuration
  let w := i2c_reg_write_byte_dt bus id.2.2 MAX86150_REG_SYSTEM_CONTROL
    MAX86150_SYS_CTRL_RESET_MASK
  if w.1 ≠ 0 then ⟨some (-1), w.2, data⟩ else
  -- Check if reseting is done
  let p := resetPoll bus fuel w.2
  match p.1 with
  | none => ⟨none, p.2, data⟩
  | some prc =>
  if prc ≠ 0 then ⟨some (-1), p.2, data⟩ else
  -- FIFO Config
  let w := i2c_reg_write_byte_dt bus p.2 MAX86150_REG_FIFO_CONFIG
    MAX86150_FIFO_ROLLS_ON_FULL_MASK
  if w.1 ≠ 0 then ⟨some (-1), w.2, data⟩ else
  -- FIFO Time Slots
  let w := i2c_reg_write_byte_dt bus w.2 MAX86150_REG_FIFO_DATA_CONTROL1
    ((config.slot 1 <<< 4) ||| config.slot 0)
  if w.1 ≠ 0 then ⟨some (-1), w.2, data⟩ else
  let w := i2c_reg_write_byte_dt bus w.2 MAX86150_REG_FIFO_DATA_CONTROL2
    ((config.slot 3 <<< 4) ||| config.slot 2)
  if w.1 ≠ 0 then ⟨some (-1), w.2, data⟩ else
  -- PPG Configs
  let w := i2c_reg_write_byte_dt bus w.2 MAX86150_REG_PPG_CONFIG1
    ((config.adc_range <<< 6) ||| (config.ppg_sample_rate <<< 2) |||
      config.ppg_pulse_width)
  if w.1 ≠ 0 then ⟨some (-1), w.2, data⟩ else
  let w := i2c_reg_write_byte_dt bus w.2 MAX86150_REG_PPG_CONFIG2
    config.ppg_sample_avg
  if w.1 ≠ 0 then ⟨some (-1), w.2, data⟩ else
  -- LEDs PA set
  let w := i2c_reg_write_byte_dt bus w.2 MAX86150_REG_LED1_PA config.IR_LED_PA
  if w.1 ≠ 0 then ⟨some (-1), w.2, data⟩ else
  let w := i2c_reg_write_byte_dt bus w.2 MAX86150_REG_LED2_PA config.RED_LED_PA
  if w.1 ≠ 0 then ⟨some (-1), w.2, data⟩ else
  -- LED Current Ranges
  let w := i2c_reg_write_byte_dt bus w.2 MAX86150_REG_LED_RANGE
    ((config.Red_current <<< 2) ||| config.IR_current)
  if w.1 ≠ 0 then ⟨some (-1), w.2, data⟩ else
  -- LED Pilot PA
  let w := i2c_reg_write_byte_dt bus w.2 MAX86150_REG_LED_PILOT_PA
    config.PILOT_LED_PA
  if w.1 ≠ 0 then ⟨some (-1), w.2, data⟩ else
  -- ECG Configuration
  let w := i2c_reg_write_byte_dt bus w.2 MAX86150_REG_ECG_CONFIG1
    config.ECG_sample_rate
  if w.1 ≠ 0 then ⟨some (-1), w.2, data⟩ else
  let w := i2c_reg_write_byte_dt bus w.2 MAX86150_REG_ECG_CONFIG3
    ((config.ECG_PGA_gain <<< 2) ||| config.ECG_IA_gain)
  if w.1 ≠ 0 then ⟨some (-1), w.2, data⟩ else
  -- Start FIFO
  let w := i2c_reg_write_byte_dt bus w.2 MAX86150_REG_SYSTEM_CONTROL
    MAX86150_FIFO_ENABLE_MASK
  if w.1 ≠ 0 then ⟨some (-1), w.2, data⟩ else
  -- Counting number of channels and store it
  ⟨some 0, w.2, { data with num_channels := countChannels config }⟩

/-! ## max86150_fetch_data -/

/-- The decoding loop of `max86150_fetch_data`:
`for (i = 0; i < num_bytes; i += 3) channel_data[fifo_chan++] = …`.
`none` stands for behaviour the C source leaves undefined: a store past
`channel_data[3]`, or a read of a buffer byte the bus did not deliver.  The
first argument bounds the number of iterations. -/
def decodeLoop (buffer : List Nat) (num_bytes : Nat) :
    Nat → Nat → Nat → (Fin 4 → Nat) → Option (Fin 4 → Nat)
  | 0, _, _, _ => none
  | steps + 1, i, fifo_chan, channel_data =>
    if i < num_bytes then
      match buffer[i]?, buffer[i + 1]?, buffer[i + 2]? with
      | some b0, some b1, some b2 =>
        let fifo_data := ((b0 <<< 16) ||| (b1 <<< 8) ||| b2) % 2 ^ 32
        if h : fifo_chan < 4 then
          decodeLoop buffer num_bytes steps (i + 3) (fifo_chan + 1)
            (Function.update channel_data ⟨fifo_chan, h⟩ fifo_data)
        else none
      | _, _, _ => none
    else some channel_data

/-- The function `max86150_fetch_data` of MAX86150.c, started on a bus whose
history is `tr`.  The loop runs at most `num_bytes / 3 + 1` tests, so the
bound handed to `decodeLoop` is never the reason for `none`. -/
def max86150_fetch_data (bus : Bus) (tr : List Event) (_config : max86150_config)
    (data : max86150_data) : Option Result :=
  let num_bytes := 3 * data.num_channels
  let b := i2c_burst_read_dt bus tr MAX86150_REG_FIFO_DATA num_bytes
  if b.1 ≠ 0 then some ⟨some (-1), b.2.2, data⟩ else
  match decodeLoop b.2.1 num_bytes (num_bytes + 1) 0 0 data.channel_data with
  | none => none
  | some cd => some ⟨some 0, b.2.2, { data with channel_data := cd }⟩

/-! ## Vocabulary for stating properties of a run -/

/-- The register writes among a list of bus events, as
`(register, value, return code)`, in order. -/
def writesOf (evs : List Event) : List (Nat × Nat × Int) :=
  evs.filterMap fun e =>
    match e with
    | Event.write reg val rc => some (reg, val, rc)
    | _ => none

/-- The `(register, value)` pairs of the register writes among a list of
bus events, in order. -/
def regValsOf (evs : List Event) : List (Nat × Nat) :=
  (writesOf evs).map fun w => (w.1, w.2.1)

/-- The events a call appended to the history `tr` it was started on. -/
def issued (tr : List Event) (r : Result) : List Event :=
  r.trace.drop tr.length

/-- The thirteen register writes of `max86150_init` in program order, each
value as it goes on the bus (narrowed to eight bits). -/
def initWriteSeq (c : max86150_config) : List (Nat × Nat) :=
  [ (0x0D, 0x01),
    (0x08, 0x10),
    (0x09, ((c.slot 1 <<< 4) ||| c.slot 0) % 256),
    (0x0A, ((c.slot 3 <<< 4) ||| c.slot 2) % 256),
    (0x0E, ((c.adc_range <<< 6) ||| (c.ppg_sample_rate <<< 2) ||| c.ppg_pulse_width) % 256),
    (0x0F, c.ppg_sample_avg % 256),
    (0x11, c.IR_LED_PA % 256),
    (0x12, c.RED_LED_PA % 256),
    (0x14, ((c.Red_current <<< 2) ||| c.IR_current) % 256),
    (0x15, c.PILOT_LED_PA % 256),
    (0x3C, c.ECG_sample_rate % 256),
    (0x3E, ((c.ECG_PGA_gain <<< 2) ||| c.ECG_IA_gain) % 256),
    (0x0D, 0x04) ]

/-- The bus history after `j` further reads of the system-control register,
starting from history `tr`. -/
def pollHistory (bus : Bus) : Nat → List Event → List Event
  | 0, tr => tr
  | j + 1, tr =>
    pollHistory bus j (i2c_reg_read_byte_dt bus tr MAX86150_REG_SYSTEM_CONTROL).2.2

/-- Number of slots of a configuration that are not disabled. -/
def activeSlots (c : max86150_config) : Nat :=
  (Finset.univ.filter fun i : Fin 4 => c.slot i ≠ 0).card

/-! ## Auxiliary view of the configuration writes as a list -/

/-- The twelve writes of `max86150_init` that follow the reset poll, with
the value expressions as the source has them (before narrowing). -/
def configWrites (c : max86150_config) : List (Nat × Nat) :=
  [ (MAX86150_REG_FIFO_CONFIG, MAX86150_FIFO_ROLLS_ON_FULL_MASK),
    (MAX86150_REG_FIFO_DATA_CONTROL1, (c.slot 1 <<< 4) ||| c.slot 0),
    (MAX86150_REG_FIFO_DATA_CONTROL2, (c.slot 3 <<< 4) ||| c.slot 2),
    (MAX86150_REG_PPG_CONFIG1,
      (c.adc_range <<< 6) ||| (c.ppg_sample_rate <<< 2) ||| c.ppg_pulse_width),
    (MAX86150_REG_PPG_CONFIG2, c.ppg_sample_avg),
    (MAX86150_REG_LED1_PA, c.IR_LED_PA),
    (MAX86150_REG_LED2_PA, c.RED_LED_PA),
    (MAX86150_REG_LED_RANGE, (c.Red_current <<< 2) ||| c.IR_current),
    (MAX86150_REG_LED_PILOT_PA, c.PILOT_LED_PA),
    (MAX86150_REG_ECG_CONFIG1, c.ECG_sample_rate),
    (MAX86150_REG_ECG_CONFIG3, (c.ECG_PGA_gain <<< 2) ||| c.ECG_IA_gain),
    (MAX86150_REG_SYSTEM_CONTROL, MAX86150_FIFO_ENABLE_MASK) ]

/-- Issue the writes of a list one after the other, stopping at the first
one the bus rejects: the pattern `if (i2c_reg_write_byte_dt(…)) return -1;`
repeated. -/
def writeSeqFrom (bus : Bus) : List (Nat × Nat) → List Event → Int × List Event
  | [], tr => (0, tr)
  | (reg, val) :: rest, tr =>
    let w := i2c_reg_write_byte_dt bus tr reg val
    if w.1 ≠ 0 then (-1, w.2) else writeSeqFrom bus rest w.2

/-- The event of a write that the bus accepted. -/
def okWrite (p : Nat × Nat) : Event := Event.write p.1 (p.2 % 256) 0

/-- How `max86150_init` ends once the configuration writes are through:
`-1` if one of them was rejected, else the channel count is stored. -/
def initFinish (config : max86150_config) (data : max86150_data)
    (s : Int × List Event) : Result :=
  if s.1 ≠ 0 then ⟨some (-1), s.2, data⟩
  else ⟨some 0, s.2, { data with num_channels := countChannels config }⟩

/-- A write tagged with the return code of an accepted transaction. -/
def accepted (p : Nat × Nat) : Nat × Nat × Int := (p.1, p.2, 0)

/-- Shape of the outcome `r` of a run of `max86150_init` started at history
`tr`: the writes it issued are an initial segment of `initWriteSeq`, all
accepted except possibly the last one, and a rejected write ends the call
with `-1`, as the last transaction, with the device state untouched. -/
def InitShape (tr : List Event) (config : max86150_config) (data : max86150_data)
    (r : Result) : Prop :=
  ∃ evs, r.trace = tr ++ evs ∧
    ((∃ n, n ≤ 13 ∧
        writesOf evs = ((initWriteSeq config).take n).map accepted ∧
        (r.ret = some 0 → n = 13 ∧
          r.data = { data with num_channels := countChannels config }) ∧
        (r.ret ≠ some 0 → r.data = data) ∧
        (r.ret = none ∨ r.ret = some 0 ∨ r.ret = some (-1))) ∨
     (∃ j reg val rc, (initWriteSeq config)[j]? = some (reg, val) ∧ rc ≠ 0 ∧
        writesOf evs =
          ((initWriteSeq config).take j).map accepted ++ [(reg, val, rc)] ∧
        evs.getLast? = some (Event.write reg val rc) ∧
        r.ret = some (-1) ∧ r.data = data))

/-! ## Concrete configurations, device states and simulated buses -/

/-- A configuration with IR, Red and ECG in the first three slots. -/
def demoConfig : max86150_config where
  IR_LED_PA := 0x55
  RED_LED_PA := 0x66
  PILOT_LED_PA := 0x77
  slot := fun i => [1, 2, 9, 0].getD i.val 0
  adc_range := 2
  ppg_sample_rate := 4
  ppg_pulse_width := 1
  ppg_sample_avg := 3
  IR_current := 1
  Red_current := 0
  ECG_sample_rate := 3
  ECG_PGA_gain := 2
  ECG_IA_gain := 1

/-- The configuration `demoConfig` with all four slots disabled. -/
def idleConfig : max86150_config :=
  { demoConfig with slot := fun _ => 0 }

/-- A device state holding recognisable stale values. -/
def staleData : max86150_data where
  channel_data := fun i => [11, 22, 33, 44].getD i.val 0
  num_channels := 2

/-- A simulated device.  It answers the identity register with `partId`,
reports the reset bit set while the history is shorter than `busyUntil`
transactions and clear afterwards, rejects every write to the register
`badReg` (if there is one) with `-5`, and answers every burst read with
return code `burstRc` and the first `len` bytes of `fifo`. -/
def simBus (isReady : Bool) (partId busyUntil : Nat) (badReg : Option Nat)
    (burstRc : Int) (fifo : List Nat) : Bus where
  ready := isReady
  reg_read := fun tr reg =>
    if reg = MAX86150_REG_ID then (0, partId)
    else if reg = MAX86150_REG_SYSTEM_CONTROL then
      (0, if tr.length < busyUntil then 1 else 0)
    else (0, 0)
  reg_write := fun _ reg _ => if badReg = some reg then -5 else 0
  burst_read := fun _ _ len => (burstRc, fifo.take len)

/-- A healthy device that needs two polls before the reset bit clears and
has a two-channel sample queued. -/
def goodBus : Bus := simBus true 0x1E 3 none 0 [0x01, 0x02, 0x03, 0xFF, 0xFE, 0xFD]

/-- The value `max86150_fetch_data` computes for channel `k` from buffer `b`. -/
def sampleAt (b : List Nat) (k : Nat) : Nat :=
  (b.getD (3 * k) 0 <<< 16) ||| (b.getD (3 * k + 1) 0 <<< 8) ||| b.getD (3 * k + 2) 0

/-- A healthy device that rejects exactly the `k`-th register write it sees
(counting from 1) with `-5`. -/
def rejectNthBus (k : Nat) : Bus where
  ready := true
  reg_read := fun _ reg => if reg = MAX86150_REG_ID then (0, MAX86150_PART_ID) else (0, 0)
  reg_write := fun tr _ _ => if (writesOf tr).length + 1 = k then -5 else 0
  burst_read := fun _ _ _ => (0, [])

/-! ## The steps at which `max86150_init` can fail, stated on the bus -/

/-- The bus history once the identity read and the reset write of
`max86150_init` have both succeeded. -/
def afterReset (tr : List Event) : List Event :=
  tr ++ [Event.read 0xFF 0 0x1E, Event.write 0x0D 0x01 0]

/-- The bus is ready, answers the identity read at history `tr` with `0x1E`
and accepts the reset write that follows. -/
def ResetDone (bus : Bus) (tr : List Event) : Prop :=
  device_is_ready bus = true ∧
  bus.reg_read tr MAX86150_REG_ID = (0, MAX86150_PART_ID) ∧
  bus.reg_write (tr ++ [Event.read 0xFF 0 0x1E]) MAX86150_REG_SYSTEM_CONTROL 0x01 = 0

/-- Asked at history `t`, the read of the system-control register succeeds
and shows the reset bit still set. -/
def PollBusy (bus : Bus) (t : List Event) : Prop :=
  (bus.reg_read t MAX86150_REG_SYSTEM_CONTROL).1 = 0 ∧
  (bus.reg_read t MAX86150_REG_SYSTEM_CONTROL).2 &&& MAX86150_SYS_CTRL_RESET_MASK ≠ 0

/-- Asked at history `t`, the read of the system-control register succeeds
and shows the reset bit clear. -/
def PollClear (bus : Bus) (t : List Event) : Prop :=
  (bus.reg_read t MAX86150_REG_SYSTEM_CONTROL).1 = 0 ∧
  (bus.reg_read t MAX86150_REG_SYSTEM_CONTROL).2 &&& MAX86150_SYS_CTRL_RESET_MASK = 0

/-- The steps of `max86150_init` that can fail: the readiness check, the
identity read, the identity comparison, the reset write, the read of poll
number `j` (from 0) of the reset loop, and configuration write number `i`
(from 0: FIFO config, …, 11: FIFO enable). -/
inductive InitStep where
  | busNotReady
  | identityRead
  | identityMismatch
  | resetWrite
  | pollRead (j : Nat)
  | configWrite (i : Nat)

/-- The step `s` of `max86150_init` is the one that fails on this bus, started
at history `tr`: everything the source does before `s` goes through and the
bus answers step `s` itself with a failure.  All conditions are on what the
bus answers at the history at which the driver asks. -/
def StepFails (bus : Bus) (tr : List Event) (config : max86150_config) :
    InitStep → Prop
  | InitStep.busNotReady => device_is_ready bus = false
  | InitStep.identityRead =>
    device_is_ready bus = true ∧ (bus.reg_read tr MAX86150_REG_ID).1 ≠ 0
  | InitStep.identityMismatch =>
    device_is_ready bus = true ∧ (bus.reg_read tr MAX86150_REG_ID).1 = 0 ∧
    (bus.reg_read tr MAX86150_REG_ID).2 ≠ MAX86150_PART_ID
  | InitStep.resetWrite =>
    device_is_ready bus = true ∧
    bus.reg_read tr MAX86150_REG_ID = (0, MAX86150_PART_ID) ∧
    bus.reg_write (tr ++ [Event.read 0xFF 0 0x1E]) MAX86150_REG_SYSTEM_CONTROL 0x01 ≠ 0
  | InitStep.pollRead j =>
    ResetDone bus tr ∧
    (∀ i, i < j → PollBusy bus (pollHistory bus i (afterReset tr))) ∧
    (bus.reg_read (pollHistory bus j (afterReset tr)) MAX86150_REG_SYSTEM_CONTROL).1 ≠ 0
  | InitStep.configWrite i =>
    ResetDone bus tr ∧
    ∃ m, (∀ k, k < m → PollBusy bus (pollHistory bus k (afterReset tr))) ∧
      PollClear bus (pollHistory bus m (afterReset tr)) ∧
      (∀ k, k < i → ∀ p, (configWrites config)[k]? = some p →
        bus.reg_write
          (pollHistory bus (m + 1) (afterReset tr) ++
            ((configWrites config).take k).map okWrite) p.1 (p.2 % 256) = 0) ∧
      ∃ p, (configWrites config)[i]? = some p ∧
        bus.reg_write
          (pollHistory bus (m + 1) (afterReset tr) ++
            ((configWrites config).take i).map okWrite) p.1 (p.2 % 256) ≠ 0

/-- A device that is healthy up to the reset poll, whose first poll reads
busy and whose second poll read fails with `-5`. -/
def pollFailBus : Bus where
  ready := true
  reg_read := fun tr reg =>
    if reg = MAX86150_REG_ID then (0, MAX86150_PART_ID)
    else if tr.length < 3 then (0, 1) else (-5, 0)
  reg_write := fun _ _ _ => 0
  burst_read := fun _ _ _ => (0, [])

/-! ## Structural lemmas -/

theorem initFinish_nil (config : max86150_config) (data : max86150_data)
    (bus : Bus) (tr : List Event) :
    initFinish config data (writeSeqFrom bus [] tr) =
      ⟨some 0, tr, { data with num_channels := countChannels config }⟩ := by
  simp [initFinish, writeSeqFrom]

theorem initFinish_cons (config : max86150_config) (data : max86150_data)
    (bus : Bus) (tr : List Event) (reg val : Nat) (rest : List (Nat × Nat)) :
    initFinish config data (writeSeqFrom bus ((reg, val) :: rest) tr) =
      if (i2c_reg_write_byte_dt bus tr reg val).1 ≠ 0 then
        ⟨some (-1), (i2c_reg_write_byte_dt bus tr reg val).2, data⟩
      else initFinish config data
        (writeSeqFrom bus rest (i2c_reg_write_byte_dt bus tr reg val).2) := by
  by_cases h : (i2c_reg_write_byte_dt bus tr reg val).1 = 0
  · simp [writeSeqFrom, h]
  · simp [writeSeqFrom, h, initFinish]

/-- The function `max86150_init` with its twelve configuration writes read
as one pass of `writeSeqFrom` over `configWrites`. -/
theorem max86150_init_eq (bus : Bus) (tr : List Event) (config : max86150_config)
    (data : max86150_data) (fuel : Nat) :
    max86150_init bus tr config data fuel =
      if device_is_ready bus = false then ⟨some (-1), tr, data⟩ else
      let id := i2c_reg_read_byte_dt bus tr MAX86150_REG_ID
      if id.1 ≠ 0 then ⟨some (-1), id.2.2, data⟩ else
      if id.2.1 ≠ MAX86150_PART_ID then ⟨some (-1), id.2.2, data⟩ else
      let w := i2c_reg_write_byte_dt bus id.2.2 MAX86150_REG_SYSTEM_CONTROL
        MAX86150_SYS_CTRL_RESET_MASK
      if w.1 ≠ 0 then ⟨some (-1), w.2, data⟩ else
      let p := resetPoll bus fuel w.2
      match p.1 with
      | none => ⟨none, p.2, data⟩
      | some prc =>
      if prc ≠ 0 then ⟨some (-1), p.2, data⟩ else
      initFinish config data (writeSeqFrom bus (configWrites config) p.2) := by
  simp only [configWrites, initFinish_cons, initFinish_nil]
  rfl

theorem writesOf_nil : writesOf [] = [] := rfl

theorem writesOf_append (a b : List Event) :
    writesOf (a ++ b) = writesOf a ++ writesOf b := by
  simp [writesOf, List.filterMap_append]

theorem writesOf_read (reg : Nat) (rc : Int) (v : Nat) :
    writesOf [Event.read reg rc v] = [] := rfl

theorem writesOf_write (reg val : Nat) (rc : Int) :
    writesOf [Event.write reg val rc] = [(reg, val, rc)] := rfl

theorem writesOf_okWrite (ws : List (Nat × Nat)) :
    writesOf (ws.map okWrite) = ws.map fun p => (p.1, p.2 % 256, (0 : Int)) := by
  induction ws with
  | nil => rfl
  | cons p ws ih =>
    have h := writesOf_append [okWrite p] (ws.map okWrite)
    simp only [List.singleton_append] at h
    simp only [List.map_cons, h, ih]
    rfl

/-- The reset poll only appends reads to the history. -/
theorem resetPoll_trace (bus : Bus) (fuel : Nat) (tr : List Event) :
    ∃ rs, (resetPoll bus fuel tr).2 = tr ++ rs ∧ writesOf rs = [] := by
  induction fuel generalizing tr with
  | zero => exact ⟨[], by simp [resetPoll], rfl⟩
  | succ n ih =>
    simp only [resetPoll, i2c_reg_read_byte_dt]
    split_ifs with h1 h2
    · exact ⟨_, rfl, rfl⟩
    · obtain ⟨rs, h, hw⟩ := ih (tr ++ [Event.read MAX86150_REG_SYSTEM_CONTROL
        (bus.reg_read tr MAX86150_REG_SYSTEM_CONTROL).1
        (bus.reg_read tr MAX86150_REG_SYSTEM_CONTROL).2])
      refine ⟨[Event.read MAX86150_REG_SYSTEM_CONTROL
        (bus.reg_read tr MAX86150_REG_SYSTEM_CONTROL).1
        (bus.reg_read tr MAX86150_REG_SYSTEM_CONTROL).2] ++ rs, ?_, ?_⟩
      · rw [h, List.append_assoc]
      · rw [writesOf_append, hw, writesOf_read]; rfl
    · exact ⟨_, rfl, rfl⟩

/-- The poll returns `0`, `-1`, or runs out of fuel. -/
theorem resetPoll_ret (bus : Bus) (fuel : Nat) (tr : List Event) :
    (resetPoll bus fuel tr).1 = none ∨ (resetPoll bus fuel tr).1 = some 0 ∨
      (resetPoll bus fuel tr).1 = some (-1) := by
  induction fuel generalizing tr with
  | zero => left; rfl
  | succ n ih =>
    simp only [resetPoll]
    split_ifs with h1 h2
    · right; right; rfl
    · exact ih _
    · right; left; rfl

/-- A pass of `writeSeqFrom` either gets every write accepted, or stops at
the first rejected one. -/
theorem writeSeqFrom_shape (bus : Bus) (ws : List (Nat × Nat)) (tr : List Event) :
    writeSeqFrom bus ws tr = (0, tr ++ ws.map okWrite) ∨
    ∃ j reg val rc, ws[j]? = some (reg, val) ∧ rc ≠ 0 ∧
      writeSeqFrom bus ws tr =
        (-1, tr ++ (ws.take j).map okWrite ++ [Event.write reg (val % 256) rc]) := by
  induction ws generalizing tr with
  | nil => left; simp [writeSeqFrom]
  | cons p ws ih =>
    obtain ⟨reg, val⟩ := p
    simp only [writeSeqFrom, i2c_reg_write_byte_dt]
    by_cases h : bus.reg_write tr reg (val % 256) = 0
    · simp only [h, ne_eq, not_true_eq_false, if_false]
      rcases ih (tr ++ [Event.write reg (val % 256) 0]) with h1 | ⟨j, r, v, rc, hj, hrc, h1⟩
      · left; rw [h1]; simp [okWrite]
      · right
        refine ⟨j + 1, r, v, rc, by simpa using hj, hrc, ?_⟩
        rw [h1]; simp [okWrite]
    · right
      refine ⟨0, reg, val, _, by simp, h, ?_⟩
      simp [h]

theorem initWriteSeq_eq (c : max86150_config) :
    initWriteSeq c =
      (0x0D, 0x01) :: (configWrites c).map fun p => (p.1, p.2 % 256) := rfl

theorem initShape_abort (tr : List Event) (config : max86150_config)
    (data : max86150_data) (evs : List Event) (n : Nat) (hn : n ≤ 13)
    (o : Option Int) (ho : o = none ∨ o = some (-1))
    (hw : writesOf evs = ((initWriteSeq config).take n).map accepted) :
    InitShape tr config data ⟨o, tr ++ evs, data⟩ := by
  refine ⟨evs, rfl, Or.inl ⟨n, hn, hw, ?_, fun _ => rfl, ?_⟩⟩
  · rcases ho with h | h <;> simp [h]
  · rcases ho with h | h <;> simp [h]

theorem init_shape (bus : Bus) (tr : List Event) (config : max86150_config)
    (data : max86150_data) (fuel : Nat) :
    InitShape tr config data (max86150_init bus tr config data fuel) := by
  rw [max86150_init_eq]
  by_cases h1 : device_is_ready bus = false
  · rw [if_pos h1]
    simpa using initShape_abort tr config data [] 0 (by omega) _ (Or.inr rfl) rfl
  rw [if_neg h1]
  simp only [i2c_reg_read_byte_dt]
  by_cases h2 : (bus.reg_read tr MAX86150_REG_ID).1 = 0
  swap
  · simp only [ne_eq, h2, not_false_eq_true, if_true]
    exact initShape_abort tr config data _ 0 (by omega) _ (Or.inr rfl) rfl
  simp only [ne_eq, h2, not_true_eq_false, if_false]
  by_cases h3 : (bus.reg_read tr MAX86150_REG_ID).2 = MAX86150_PART_ID
  swap
  · simp only [h3, not_false_eq_true, if_true]
    exact initShape_abort tr config data _ 0 (by omega) _ (Or.inr rfl) rfl
  simp only [h3, not_true_eq_false, if_false]
  simp only [i2c_reg_write_byte_dt]
  generalize hrc : bus.reg_write _ MAX86150_REG_SYSTEM_CONTROL _ = rc
  by_cases h4 : rc = 0
  swap
  · simp only [ne_eq, h4, not_false_eq_true, if_true]
    refine ⟨[Event.read MAX86150_REG_ID 0 MAX86150_PART_ID,
      Event.write MAX86150_REG_SYSTEM_CONTROL 1 rc], by simp,
      Or.inr ⟨0, 0x0D, 1, rc, rfl, h4, rfl, rfl, rfl, rfl⟩⟩
  subst h4
  simp only [ne_eq, not_true_eq_false, if_false]
  obtain ⟨rs, hrs, hrsw⟩ := resetPoll_trace bus fuel
    (tr ++ [Event.read MAX86150_REG_ID 0 MAX86150_PART_ID] ++
      [Event.write MAX86150_REG_SYSTEM_CONTROL (MAX86150_SYS_CTRL_RESET_MASK % 256) 0])
  have hret := resetPoll_ret bus fuel
    (tr ++ [Event.read MAX86150_REG_ID 0 MAX86150_PART_ID] ++
      [Event.write MAX86150_REG_SYSTEM_CONTROL (MAX86150_SYS_CTRL_RESET_MASK % 256) 0])
  generalize resetPoll bus fuel _ = p at hrs hret ⊢
  obtain ⟨o, t⟩ := p
  simp only at hrs hret
  subst hrs
  have hpre : writesOf ([Event.read MAX86150_REG_ID 0 MAX86150_PART_ID,
      Event.write MAX86150_REG_SYSTEM_CONTROL 1 0] ++ rs) =
      ((initWriteSeq config).take 1).map accepted := by
    rw [writesOf_append, hrsw]; rfl
  rcases hret with rfl | rfl | rfl
  · simpa using initShape_abort tr config data _ 1 (by omega) _ (Or.inl rfl) hpre
  swap
  · simpa using initShape_abort tr config data _ 1 (by omega) _ (Or.inr rfl) hpre
  simp only [not_true_eq_false, if_false]
  rcases writeSeqFrom_shape bus (configWrites config)
    (tr ++ [Event.read MAX86150_REG_ID 0 MAX86150_PART_ID] ++
      [Event.write MAX86150_REG_SYSTEM_CONTROL (MAX86150_SYS_CTRL_RESET_MASK % 256) 0] ++ rs)
    with h | ⟨j, reg, val, rc, hj, hrc, h⟩
  · rw [h]
    refine ⟨[Event.read MAX86150_REG_ID 0 MAX86150_PART_ID,
      Event.write MAX86150_REG_SYSTEM_CONTROL 1 0] ++ rs ++ (configWrites config).map okWrite,
      by simp [initFinish], Or.inl ⟨13, le_refl _, ?_, ?_, ?_, ?_⟩⟩
    · rw [writesOf_append, hpre, writesOf_okWrite]; rfl
    · intro _; exact ⟨rfl, by simp [initFinish]⟩
    · intro hne; simp [initFinish] at hne
    · right; left; simp [initFinish]
  · rw [h]
    have hlast : ([Event.read MAX86150_REG_ID 0 MAX86150_PART_ID,
        Event.write MAX86150_REG_SYSTEM_CONTROL 1 0] ++ rs ++
        ((configWrites config).take j).map okWrite ++
        [Event.write reg (val % 256) rc]).getLast? =
        some (Event.write reg (val % 256) rc) := List.getLast?_concat _
    refine ⟨[Event.read MAX86150_REG_ID 0 MAX86150_PART_ID,
      Event.write MAX86150_REG_SYSTEM_CONTROL 1 0] ++ rs ++
        ((configWrites config).take j).map okWrite ++ [Event.write reg (val % 256) rc],
      by simp [initFinish], Or.inr ⟨j + 1, reg, val % 256, rc, ?_, hrc, ?_, hlast, ?_, ?_⟩⟩
    · rw [initWriteSeq_eq, List.getElem?_cons_succ, List.getElem?_map, hj]; rfl
    · rw [writesOf_append, writesOf_append, hpre, writesOf_okWrite, writesOf_write,
        initWriteSeq_eq]
      simp [accepted, List.map_take]
      rfl
    · simp [initFinish]
    · simp [initFinish]
/-! ## Properties of `max86150_init` and `max86150_fetch_data` -/

/-- C4: if the bus readiness check returns false, `max86150_init` returns the
error value immediately, for every configuration and every fuel: the bus
history is exactly what it was (no transaction at all) and the device state
is unchanged. -/
theorem init_bus_not_ready (bus : Bus) (tr : List Event) (config : max86150_config)
    (data : max86150_data) (fuel : Nat) (hready : device_is_ready bus = false) :
    (max86150_init bus tr config data fuel).ret = some (-1) ∧
    (max86150_init bus tr config data fuel).trace = tr ∧
    (max86150_init bus tr config data fuel).data = data := by
  simp [max86150_init, hready]

theorem init_bus_not_ready_witness :
    device_is_ready (simBus false 0x1E 0 none 0 []) = false ∧
    (max86150_init (simBus false 0x1E 0 none 0 []) [] demoConfig staleData 0).ret = some (-1) ∧
    (max86150_init (simBus false 0x1E 0 none 0 []) [] demoConfig staleData 0).trace = [] ∧
    (max86150_init (simBus false 0x1E 0 none 0 []) [] demoConfig staleData 0).data = staleData :=
  ⟨rfl, init_bus_not_ready _ [] demoConfig staleData 0 rfl⟩

/-- C3: when the bus is ready and the read of the identity register succeeds
with a value `v` other than `0x1E`, `max86150_init` returns the error value;
the identity read is the only transaction it issued (so no register write),
and the device state is unchanged. -/
theorem init_unexpected_identity (bus : Bus) (tr : List Event)
    (config : max86150_config) (data : max86150_data) (fuel : Nat) (v : Nat)
    (hready : device_is_ready bus = true)
    (hread : bus.reg_read tr MAX86150_REG_ID = (0, v)) (hv : v ≠ 0x1E) :
    (max86150_init bus tr config data fuel).ret = some (-1) ∧
    (max86150_init bus tr config data fuel).trace = tr ++ [Event.read 0xFF 0 v] ∧
    writesOf (issued tr (max86150_init bus tr config data fuel)) = [] ∧
    (max86150_init bus tr config data fuel).data = data := by
  have h : max86150_init bus tr config data fuel =
      ⟨some (-1), tr ++ [Event.read 0xFF 0 v], data⟩ := by
    simp [max86150_init, hready, i2c_reg_read_byte_dt, hread, hv]
  rw [h]
  simp [issued, writesOf]

theorem init_unexpected_identity_witness :
    device_is_ready (simBus true 0x15 0 none 0 []) = true ∧
    (simBus true 0x15 0 none 0 []).reg_read [] MAX86150_REG_ID = (0, 0x15) ∧
    0x15 ≠ 0x1E ∧
    (max86150_init (simBus true 0x15 0 none 0 []) [] demoConfig staleData 4).ret = some (-1) ∧
    (max86150_init (simBus true 0x15 0 none 0 []) [] demoConfig staleData 4).trace =
      [] ++ [Event.read 0xFF 0 0x15] ∧
    writesOf (issued []
      (max86150_init (simBus true 0x15 0 none 0 []) [] demoConfig staleData 4)) = [] ∧
    (max86150_init (simBus true 0x15 0 none 0 []) [] demoConfig staleData 4).data = staleData :=
  ⟨rfl, rfl, by decide,
    init_unexpected_identity (simBus true 0x15 0 none 0 []) [] demoConfig staleData 4 0x15
      rfl rfl (by decide)⟩

/-- C7: if the burst read from the FIFO data register fails, then whatever
the device state, `max86150_fetch_data` returns the error value and hands the
device state back exactly as it was (every `channel_data` entry and
`num_channels`); the burst read is the only transaction issued. -/
theorem fetch_burst_failure (bus : Bus) (tr : List Event) (config : max86150_config)
    (data : max86150_data)
    (hfail : (bus.burst_read tr MAX86150_REG_FIFO_DATA (3 * data.num_channels)).1 ≠ 0) :
    max86150_fetch_data bus tr config data =
      some ⟨some (-1),
        tr ++ [Event.burst 0x07 (3 * data.num_channels)
          (bus.burst_read tr 0x07 (3 * data.num_channels)).1
          (bus.burst_read tr 0x07 (3 * data.num_channels)).2], data⟩ := by
  simp [max86150_fetch_data, i2c_burst_read_dt, hfail]

theorem fetch_burst_failure_witness :
    ((simBus true 0x1E 0 none (-5) [9, 9, 9, 9, 9, 9]).burst_read []
        MAX86150_REG_FIFO_DATA (3 * staleData.num_channels)).1 ≠ 0 ∧
    max86150_fetch_data (simBus true 0x1E 0 none (-5) [9, 9, 9, 9, 9, 9]) [] demoConfig staleData =
      some ⟨some (-1), [] ++ [Event.burst 0x07 (3 * staleData.num_channels)
          ((simBus true 0x1E 0 none (-5) [9, 9, 9, 9, 9, 9]).burst_read [] 0x07
            (3 * staleData.num_channels)).1
          ((simBus true 0x1E 0 none (-5) [9, 9, 9, 9, 9, 9]).burst_read [] 0x07
            (3 * staleData.num_channels)).2], staleData⟩ :=
  ⟨by decide, fetch_burst_failure _ [] demoConfig staleData (by decide)⟩

/-- C9, as the code has it: two different steps of `max86150_init` fail with
the same return value.  A bus that is not ready and a device answering the
wrong identity both make the call return `-1`, although the first run issued
no transaction and the second one an identity read. -/
theorem init_error_values_coincide :
    (max86150_init (simBus false 0x1E 0 none 0 []) [] demoConfig staleData 4).ret = some (-1) ∧
    (max86150_init (simBus false 0x1E 0 none 0 []) [] demoConfig staleData 4).trace = [] ∧
    (max86150_init (simBus true 0x15 0 none 0 []) [] demoConfig staleData 4).ret = some (-1) ∧
    (max86150_init (simBus true 0x15 0 none 0 []) [] demoConfig staleData 4).trace =
      [Event.read 0xFF 0 0x15] ∧
    ¬ ((max86150_init (simBus false 0x1E 0 none 0 []) [] demoConfig staleData 4).ret ≠
       (max86150_init (simBus true 0x15 0 none 0 []) [] demoConfig staleData 4).ret) := by
  refine ⟨rfl, rfl, rfl, rfl, ?_⟩
  intro h
  exact h rfl

/-- Polls that read busy are followed through: after `j` of them the loop
is where it would be if started at the later history with `j` less fuel. -/
theorem resetPoll_skip (bus : Bus) (j : Nat) :
    ∀ (t : List Event) (f : Nat),
      (∀ i, i < j → PollBusy bus (pollHistory bus i t)) →
      resetPoll bus (j + f) t = resetPoll bus f (pollHistory bus j t) := by
  induction j with
  | zero => intro t f _; simp [pollHistory]
  | succ j ih =>
    intro t f hbusy
    have h0 := hbusy 0 (Nat.succ_pos _)
    simp only [pollHistory, PollBusy] at h0
    have e : j + 1 + f = (j + f) + 1 := by omega
    rw [e, resetPoll]
    simp only [i2c_reg_read_byte_dt, h0.1, ne_eq, not_true_eq_false, if_false, h0.2,
      not_false_eq_true, if_true]
    have := ih (i2c_reg_read_byte_dt bus t MAX86150_REG_SYSTEM_CONTROL).2.2 f
      (fun i hi => hbusy (i + 1) (by omega))
    simp only [i2c_reg_read_byte_dt, h0.1] at this
    rw [this]
    simp [pollHistory, i2c_reg_read_byte_dt, h0.1]

theorem pollHistory_succ_last (bus : Bus) (j : Nat) :
    ∀ t : List Event, pollHistory bus (j + 1) t =
      (i2c_reg_read_byte_dt bus (pollHistory bus j t) MAX86150_REG_SYSTEM_CONTROL).2.2 := by
  induction j with
  | zero => intro t; rfl
  | succ j ih =>
    intro t
    have := ih (i2c_reg_read_byte_dt bus t MAX86150_REG_SYSTEM_CONTROL).2.2
    exact this

/-- Writes that are accepted are followed through. -/
theorem writeSeqFrom_skip (bus : Bus) (i : Nat) :
    ∀ (ws : List (Nat × Nat)) (t : List Event),
      (∀ k, k < i → ∀ p, ws[k]? = some p →
        bus.reg_write (t ++ (ws.take k).map okWrite) p.1 (p.2 % 256) = 0) →
      writeSeqFrom bus ws t =
        writeSeqFrom bus (ws.drop i) (t ++ (ws.take i).map okWrite) := by
  induction i with
  | zero => intro ws t _; simp
  | succ i ih =>
    intro ws t hacc
    cases ws with
    | nil => simp
    | cons p ws =>
      obtain ⟨reg, val⟩ := p
      have h0 := hacc 0 (Nat.succ_pos _) (reg, val) (by simp)
      simp only [List.take_zero, List.map_nil, List.append_nil] at h0
      rw [writeSeqFrom]
      simp only [i2c_reg_write_byte_dt, h0, ne_eq, not_true_eq_false, if_false]
      rw [ih ws (t ++ [Event.write reg (val % 256) 0])]
      · simp [okWrite]
      · intro k hk q hq
        have := hacc (k + 1) (by omega) q (by simpa using hq)
        simpa [okWrite] using this

theorem init_ret_cases (bus : Bus) (tr : List Event) (config : max86150_config)
    (data : max86150_data) (fuel : Nat) (rc : Int)
    (hret : (max86150_init bus tr config data fuel).ret = some rc) (hne : rc ≠ 0) :
    rc = -1 := by
  obtain ⟨evs, -, h | h⟩ := init_shape bus tr config data fuel
  · obtain ⟨n, -, -, -, -, h3⟩ := h
    rw [hret] at h3
    rcases h3 with h3 | h3 | h3
    · cases h3
    · exact absurd (Option.some.inj h3) hne
    · exact Option.some.inj h3
  · obtain ⟨j, reg, val, rc2, -, -, -, -, h3, -⟩ := h
    rw [hret] at h3
    exact Option.some.inj h3

/-- Once the reset write is through, `max86150_init` is the poll loop
followed by the configuration writes. -/
theorem init_after_reset (bus : Bus) (tr : List Event) (config : max86150_config)
    (data : max86150_data) (fuel : Nat) (h : ResetDone bus tr) :
    max86150_init bus tr config data fuel =
      match (resetPoll bus fuel (afterReset tr)).1 with
      | none => ⟨none, (resetPoll bus fuel (afterReset tr)).2, data⟩
      | some prc =>
        if prc ≠ 0 then ⟨some (-1), (resetPoll bus fuel (afterReset tr)).2, data⟩
        else initFinish config data
          (writeSeqFrom bus (configWrites config) (resetPoll bus fuel (afterReset tr)).2) := by
  obtain ⟨h1, h2, h3⟩ := h
  have e : tr ++ [Event.read MAX86150_REG_ID 0 MAX86150_PART_ID] ++
      [Event.write MAX86150_REG_SYSTEM_CONTROL (MAX86150_SYS_CTRL_RESET_MASK % 256) 0] =
      afterReset tr := by simp [afterReset]
  have h3' : bus.reg_write (tr ++ [Event.read MAX86150_REG_ID 0 MAX86150_PART_ID])
      MAX86150_REG_SYSTEM_CONTROL (MAX86150_SYS_CTRL_RESET_MASK % 256) = 0 := h3
  rw [max86150_init_eq]
  simp only [h1, i2c_reg_read_byte_dt, h2, i2c_reg_write_byte_dt, h3', e]
  simp

/-- C9 amended: whichever step of `max86150_init` fails (bus not ready,
identity read, identity mismatch, reset write, a read of the reset poll, or
any of the twelve configuration writes), the call returns the same error
value `-1`, for every fuel from some bound on; and no run ever returns a
non-zero value other than `-1`.  The return value therefore does not identify
the failing step. -/
theorem init_error_value_uniform (bus : Bus) (tr : List Event)
    (config : max86150_config) (data : max86150_data) (step : InitStep)
    (hfail : StepFails bus tr config step) :
    (∃ fuel0, ∀ fuel, fuel0 ≤ fuel →
      (max86150_init bus tr config data fuel).ret = some (-1)) ∧
    (∀ fuel rc, (max86150_init bus tr config data fuel).ret = some rc → rc ≠ 0 →
      rc = -1) := by
  refine ⟨?_, fun fuel rc h1 h2 => init_ret_cases bus tr config data fuel rc h1 h2⟩
  cases step with
  | busNotReady =>
    have h0 : device_is_ready bus = false := hfail
    exact ⟨0, fun fuel _ => by simp [max86150_init, h0]⟩
  | identityRead =>
    obtain ⟨h1, h2⟩ := hfail
    exact ⟨0, fun fuel _ => by simp [max86150_init, h1, i2c_reg_read_byte_dt, h2]⟩
  | identityMismatch =>
    obtain ⟨h1, h2, h3⟩ := hfail
    exact ⟨0, fun fuel _ => by simp [max86150_init, h1, i2c_reg_read_byte_dt, h2, h3]⟩
  | resetWrite =>
    obtain ⟨h1, h2, h3⟩ := hfail
    have h3' : bus.reg_write (tr ++ [Event.read MAX86150_REG_ID 0 MAX86150_PART_ID])
        MAX86150_REG_SYSTEM_CONTROL (MAX86150_SYS_CTRL_RESET_MASK % 256) ≠ 0 := h3
    exact ⟨0, fun fuel _ => by
      have h3b : ¬ bus.reg_write (tr ++ [Event.read MAX86150_REG_ID 0 MAX86150_PART_ID])
          MAX86150_REG_SYSTEM_CONTROL 1 = 0 := h3
      simp [max86150_init, h1, i2c_reg_read_byte_dt, h2, i2c_reg_write_byte_dt, h3b]⟩
  | pollRead j =>
    obtain ⟨hreset, hbusy, hbad⟩ := hfail
    refine ⟨j + 1, fun fuel hfuel => ?_⟩
    obtain ⟨f, rfl⟩ : ∃ f, fuel = j + (f + 1) := ⟨fuel - j - 1, by omega⟩
    rw [init_after_reset bus tr config data _ hreset, resetPoll_skip bus j _ _ hbusy,
      resetPoll]
    simp [i2c_reg_read_byte_dt, hbad]
  | configWrite i =>
    obtain ⟨hreset, m, hbusy, hclear, hacc, p, hp, hrej⟩ := hfail
    refine ⟨m + 1, fun fuel hfuel => ?_⟩
    obtain ⟨f, rfl⟩ : ∃ f, fuel = m + (f + 1) := ⟨fuel - m - 1, by omega⟩
    have hpoll : resetPoll bus (m + (f + 1)) (afterReset tr) =
        (some 0, pollHistory bus (m + 1) (afterReset tr)) := by
      rw [resetPoll_skip bus m _ _ hbusy, resetPoll, pollHistory_succ_last]
      simp only [PollClear] at hclear
      simp [i2c_reg_read_byte_dt, hclear.1, hclear.2]
    rw [init_after_reset bus tr config data _ hreset, hpoll]
    simp only [ne_eq, not_true_eq_false, if_false]
    rw [writeSeqFrom_skip bus i _ _ hacc]
    obtain ⟨reg, val⟩ := p
    have hd : (configWrites config).drop i =
        (reg, val) :: (configWrites config).drop (i + 1) := by
      obtain ⟨hlt, hget⟩ := List.getElem?_eq_some.1 hp
      rw [List.drop_eq_getElem_cons hlt, hget]
    have hrej2 : (i2c_reg_write_byte_dt bus
        (pollHistory bus (m + 1) (afterReset tr) ++
          ((configWrites config).take i).map okWrite) reg val).1 ≠ 0 := hrej
    rw [hd, writeSeqFrom]
    simp only [hrej2, ne_eq, not_false_eq_true, if_true, initFinish]
    simp

theorem init_error_value_uniform_witness :
    StepFails (simBus true 0x1E 3 (some 0x0E) 0 []) [] demoConfig (InitStep.configWrite 3) ∧
    ((∃ fuel0, ∀ fuel, fuel0 ≤ fuel →
      (max86150_init (simBus true 0x1E 3 (some 0x0E) 0 []) [] demoConfig staleData fuel).ret =
        some (-1)) ∧
    (∀ fuel rc,
      (max86150_init (simBus true 0x1E 3 (some 0x0E) 0 []) [] demoConfig staleData fuel).ret =
        some rc → rc ≠ 0 → rc = -1)) ∧
    (max86150_init (simBus true 0x1E 3 (some 0x0E) 0 []) [] demoConfig staleData 2).ret =
      some (-1) :=
  ⟨⟨⟨rfl, rfl, rfl⟩, 1,
      fun k hk => by
        obtain rfl : k = 0 := by omega
        exact ⟨rfl, by decide⟩,
      ⟨rfl, by decide⟩,
      fun k hk p hp => by
        simp only [simBus]
        interval_cases k <;> simp [configWrites] at hp <;> subst hp <;> rfl,
      ⟨(0x0E, _), rfl, by decide⟩⟩,
    init_error_value_uniform (simBus true 0x1E 3 (some 0x0E) 0 []) [] demoConfig staleData
      (InitStep.configWrite 3)
      ⟨⟨rfl, rfl, rfl⟩, 1,
        fun k hk => by
          obtain rfl : k = 0 := by omega
          exact ⟨rfl, by decide⟩,
        ⟨rfl, by decide⟩,
        fun k hk p hp => by
          simp only [simBus]
          interval_cases k <;> simp [configWrites] at hp <;> subst hp <;> rfl,
        ⟨(0x0E, _), rfl, by decide⟩⟩,
    rfl⟩

/-- The other kinds of step can fail as well: a failed identity read, a
rejected reset write and a failed poll read are each produced by a concrete
bus, and each of those runs returns `-1`. -/
theorem other_steps_can_fail :
    StepFails pollFailBus [] demoConfig (InitStep.pollRead 1) ∧
    (max86150_init pollFailBus [] demoConfig staleData 2).ret = some (-1) ∧
    (max86150_init pollFailBus [] demoConfig staleData 2).trace =
      [Event.read 0xFF 0 0x1E, Event.write 0x0D 0x01 0, Event.read 0x0D 0 1,
        Event.read 0x0D (-5) 0] ∧
    StepFails (simBus true 0x1E 3 (some 0x0D) 0 []) [] demoConfig InitStep.resetWrite ∧
    (max86150_init (simBus true 0x1E 3 (some 0x0D) 0 []) [] demoConfig staleData 2).ret =
      some (-1) ∧
    (max86150_init (simBus true 0x1E 3 (some 0x0D) 0 []) [] demoConfig staleData 2).trace =
      [Event.read 0xFF 0 0x1E, Event.write 0x0D 0x01 (-5)] := by
  refine ⟨⟨⟨rfl, rfl, rfl⟩, ?_, by decide⟩, rfl, rfl,
    ⟨rfl, rfl, by decide⟩, rfl, rfl⟩
  intro i hi
  obtain rfl : i = 0 := by omega
  exact ⟨rfl, by decide⟩

theorem countChannels_eq (c : max86150_config) : countChannels c = activeSlots c := by
  unfold countChannels activeSlots
  rw [Finset.card_filter, Fin.sum_univ_four]
  have h : List.finRange 4 = [0, 1, 2, 3] := by decide
  rw [h]
  simp only [List.foldl]
  split_ifs <;> rfl

theorem activeSlots_le (c : max86150_config) : activeSlots c ≤ 4 := by
  unfold activeSlots
  exact (Finset.card_filter_le _ _).trans (by simp)

/-- C2: whenever `max86150_init` returns success, the `num_channels` it
leaves in the device state is the number of indices `i` in `0..3` with
`config.slot[i] != 0`, hence at most 4, whatever `num_channels` held before
and whatever the other fields of the configuration are. -/
theorem init_channel_count (bus : Bus) (tr : List Event) (config : max86150_config)
    (data : max86150_data) (fuel : Nat)
    (hok : (max86150_init bus tr config data fuel).ret = some 0) :
    (max86150_init bus tr config data fuel).data.num_channels = activeSlots config ∧
    0 ≤ (max86150_init bus tr config data fuel).data.num_channels ∧
    (max86150_init bus tr config data fuel).data.num_channels ≤ 4 := by
  have hn : (max86150_init bus tr config data fuel).data.num_channels =
      activeSlots config := by
    obtain ⟨evs, -, h | h⟩ := init_shape bus tr config data fuel
    · obtain ⟨n, -, -, h1, -, -⟩ := h
      rw [(h1 hok).2]
      exact countChannels_eq config
    · obtain ⟨j, reg, val, rc, -, -, -, -, h3, -⟩ := h
      rw [hok] at h3
      cases h3
  exact ⟨hn, Nat.zero_le _, hn ▸ activeSlots_le config⟩

theorem init_channel_count_witness :
    (max86150_init goodBus [] demoConfig staleData 5).ret = some 0 ∧
    (max86150_init goodBus [] demoConfig staleData 5).data.num_channels =
      activeSlots demoConfig ∧
    0 ≤ (max86150_init goodBus [] demoConfig staleData 5).data.num_channels ∧
    (max86150_init goodBus [] demoConfig staleData 5).data.num_channels ≤ 4 :=
  ⟨rfl, init_channel_count goodBus [] demoConfig staleData 5 rfl⟩


theorem issued_eq (tr evs : List Event) (r : Result) (h : r.trace = tr ++ evs) :
    issued tr r = evs := by
  simp [issued, h]

theorem mem_writesOf (evs : List Event) (reg val : Nat) (rc : Int) :
    (reg, val, rc) ∈ writesOf evs ↔ Event.write reg val rc ∈ evs := by
  unfold writesOf
  rw [List.mem_filterMap]
  constructor
  · rintro ⟨e, he, h⟩
    cases e <;> simp at h
    obtain ⟨rfl, rfl, rfl⟩ := h
    exact he
  · intro h
    exact ⟨_, h, rfl⟩

/-- Every register write `max86150_init` issues is one of the thirteen of
`initWriteSeq`. -/
theorem init_writes_mem (bus : Bus) (tr : List Event) (config : max86150_config)
    (data : max86150_data) (fuel : Nat) (reg val : Nat) (rc : Int)
    (h : Event.write reg val rc ∈ issued tr (max86150_init bus tr config data fuel)) :
    (reg, val) ∈ initWriteSeq config := by
  obtain ⟨evs, htr, hs⟩ := init_shape bus tr config data fuel
  rw [issued_eq tr evs _ htr, ← mem_writesOf] at h
  rcases hs with ⟨n, -, hw, -⟩ | ⟨j, reg2, val2, rc2, hj, -, hw, -⟩
  · rw [hw, List.mem_map] at h
    obtain ⟨p, hp, hpe⟩ := h
    have : p = (reg, val) := by
      cases p; simp [accepted] at hpe; simp [hpe]
    exact this ▸ List.mem_of_mem_take hp
  · rw [hw, List.mem_append, List.mem_map] at h
    rcases h with ⟨p, hp, hpe⟩ | h
    · have : p = (reg, val) := by
        cases p; simp [accepted] at hpe; simp [hpe]
      exact this ▸ List.mem_of_mem_take hp
    · simp at h
      obtain ⟨rfl, rfl, rfl⟩ := h
      exact List.getElem?_mem hj

theorem ppg_config1_roundtrip :
    ∀ range < 4, ∀ rate < 16, ∀ width < 4,
      ((range <<< 6) ||| (rate <<< 2) ||| width) % 256 =
        ((range <<< 6) ||| (rate <<< 2) ||| width) ∧
      ((range <<< 6) ||| (rate <<< 2) ||| width) < 256 ∧
      (((range <<< 6) ||| (rate <<< 2) ||| width) >>> 6) &&& 3 = range ∧
      (((range <<< 6) ||| (rate <<< 2) ||| width) >>> 2) &&& 15 = rate ∧
      ((range <<< 6) ||| (rate <<< 2) ||| width) &&& 3 = width := by
  decide

/-- C5: for `adc_range` in `0..3`, `ppg_sample_rate` in `0..15` and
`ppg_pulse_width` in `0..3`, any byte `max86150_init` writes to PPG Config 1
(`0x0E`) equals `(range << 6) | (rate << 2) | width`, fits in eight bits, and
unpacks with `(v >> 6) & 3`, `(v >> 2) & 15`, `v & 3` to the original range,
rate and width. -/
theorem init_ppg_config1_byte (bus : Bus) (tr : List Event) (config : max86150_config)
    (data : max86150_data) (fuel : Nat) (v : Nat) (rc : Int)
    (hrange : config.adc_range < 4) (hrate : config.ppg_sample_rate < 16)
    (hwidth : config.ppg_pulse_width < 4)
    (hw : Event.write MAX86150_REG_PPG_CONFIG1 v rc ∈
      issued tr (max86150_init bus tr config data fuel)) :
    v = ((config.adc_range <<< 6) ||| (config.ppg_sample_rate <<< 2) |||
      config.ppg_pulse_width) ∧
    v < 256 ∧
    (v >>> 6) &&& 3 = config.adc_range ∧
    (v >>> 2) &&& 15 = config.ppg_sample_rate ∧
    v &&& 3 = config.ppg_pulse_width := by
  have hmem := init_writes_mem bus tr config data fuel _ _ _ hw
  have hv : v = ((config.adc_range <<< 6) ||| (config.ppg_sample_rate <<< 2) |||
      config.ppg_pulse_width) % 256 := by
    simpa [initWriteSeq] using hmem
  obtain ⟨h0, h1, h2, h3, h4⟩ := ppg_config1_roundtrip _ hrange _ hrate _ hwidth
  rw [h0] at hv
  subst hv
  exact ⟨rfl, h1, h2, h3, h4⟩

theorem init_ppg_config1_byte_witness :
    demoConfig.adc_range < 4 ∧ demoConfig.ppg_sample_rate < 16 ∧
    demoConfig.ppg_pulse_width < 4 ∧
    Event.write MAX86150_REG_PPG_CONFIG1 0x91 0 ∈
      issued [] (max86150_init goodBus [] demoConfig staleData 5) ∧
    (0x91 = ((demoConfig.adc_range <<< 6) ||| (demoConfig.ppg_sample_rate <<< 2) |||
      demoConfig.ppg_pulse_width) ∧
    0x91 < 256 ∧
    (0x91 >>> 6) &&& 3 = demoConfig.adc_range ∧
    (0x91 >>> 2) &&& 15 = demoConfig.ppg_sample_rate ∧
    0x91 &&& 3 = demoConfig.ppg_pulse_width) :=
  ⟨by decide, by decide, by decide, by decide,
    init_ppg_config1_byte goodBus [] demoConfig staleData 5 0x91 0
      (by decide) (by decide) (by decide) (by decide)⟩

theorem accepted_rc (l : List (Nat × Nat)) (i : Nat) (w : Nat × Nat × Int)
    (h : (l.map accepted)[i]? = some w) : w.2.2 = 0 := by
  rw [List.getElem?_map] at h
  cases hl : l[i]? with
  | none => rw [hl] at h; cases h
  | some p => rw [hl] at h; cases h; rfl

theorem regVals_accepted (l : List (Nat × Nat)) :
    (l.map accepted).map (fun w => (w.1, w.2.1)) = l := by
  induction l with
  | nil => rfl
  | cons p l ih => simp only [List.map_cons, ih]; rfl

theorem take_succ_of_getElem? (l : List (Nat × Nat)) (j : Nat) (p : Nat × Nat)
    (h : l[j]? = some p) : l.take (j + 1) = l.take j ++ [p] := by
  rw [List.take_succ, h]; rfl

/-- C8: in any run of `max86150_init`, if the `k`-th register write it issued
(counting from 1) was rejected by the bus, then the call returns the error
value, that write is the last transaction of the run, the writes attempted
are exactly the first `k` of the thirteen-write sequence (so `k ≤ 13`), and
the device state, `num_channels` included, is what it was before the call. -/
theorem init_write_failure_aborts (bus : Bus) (tr : List Event)
    (config : max86150_config) (data : max86150_data) (fuel : Nat)
    (k reg val : Nat) (rc : Int) (hk : 1 ≤ k)
    (hkth : (writesOf (issued tr (max86150_init bus tr config data fuel)))[k - 1]? =
      some (reg, val, rc))
    (hfail : rc ≠ 0) :
    (max86150_init bus tr config data fuel).ret = some (-1) ∧
    k ≤ 13 ∧
    (issued tr (max86150_init bus tr config data fuel)).getLast? =
      some (Event.write reg val rc) ∧
    regValsOf (issued tr (max86150_init bus tr config data fuel)) =
      (initWriteSeq config).take k ∧
    (max86150_init bus tr config data fuel).data = data := by
  obtain ⟨evs, htr, hs⟩ := init_shape bus tr config data fuel
  rw [issued_eq tr evs _ htr] at hkth ⊢
  rcases hs with ⟨n, -, hw, -⟩ | ⟨j, reg2, val2, rc2, hj, -, hw, hlast, hret, hdata⟩
  · rw [hw] at hkth
    exact absurd (accepted_rc _ _ _ hkth) hfail
  · have hjlt : j < 13 := by
      have := (List.getElem?_eq_some.1 hj).1
      simpa [initWriteSeq] using this
    have hlen : (((initWriteSeq config).take j).map accepted).length = j := by
      rw [List.length_map, List.length_take]
      simp [initWriteSeq]; omega
    rw [hw] at hkth
    by_cases hlt : k - 1 < j
    · rw [List.getElem?_append_left (by rw [hlen]; exact hlt)] at hkth
      exact absurd (accepted_rc _ _ _ hkth) hfail
    · rw [List.getElem?_append_right (by rw [hlen]; omega), hlen] at hkth
      have hkj : k - 1 - j = 0 := by
        by_contra hne
        obtain ⟨m, hm⟩ := Nat.exists_eq_succ_of_ne_zero hne
        rw [hm] at hkth
        simp at hkth
      rw [hkj] at hkth
      simp at hkth
      obtain ⟨rfl, rfl, rfl⟩ := hkth
      have hk' : k = j + 1 := by omega
      refine ⟨hret, by omega, hlast, ?_, hdata⟩
      unfold regValsOf
      rw [hw, List.map_append, regVals_accepted, hk', take_succ_of_getElem? _ _ _ hj]
      rfl

theorem init_write_failure_aborts_witness :
    1 ≤ 5 ∧
    (writesOf (issued [] (max86150_init (simBus true 0x1E 3 (some 0x0E) 0 []) []
      demoConfig staleData 4)))[5 - 1]? = some (0x0E, 0x91, -5) ∧
    (-5 : Int) ≠ 0 ∧
    ((max86150_init (simBus true 0x1E 3 (some 0x0E) 0 []) [] demoConfig staleData 4).ret =
      some (-1) ∧
    5 ≤ 13 ∧
    (issued [] (max86150_init (simBus true 0x1E 3 (some 0x0E) 0 []) []
      demoConfig staleData 4)).getLast? = some (Event.write 0x0E 0x91 (-5)) ∧
    regValsOf (issued [] (max86150_init (simBus true 0x1E 3 (some 0x0E) 0 []) []
      demoConfig staleData 4)) = (initWriteSeq demoConfig).take 5 ∧
    (max86150_init (simBus true 0x1E 3 (some 0x0E) 0 []) [] demoConfig staleData 4).data =
      staleData) :=
  ⟨by decide, by decide, by decide,
    init_write_failure_aborts (simBus true 0x1E 3 (some 0x0E) 0 []) [] demoConfig staleData 4
      5 0x0E 0x91 (-5) (by decide) (by decide) (by decide)⟩

theorem writeSeqFrom_all_ok (bus : Bus)
    (hwr : ∀ h reg val, bus.reg_write h reg val = 0)
    (ws : List (Nat × Nat)) (tr : List Event) :
    writeSeqFrom bus ws tr = (0, tr ++ ws.map okWrite) := by
  induction ws generalizing tr with
  | nil => simp [writeSeqFrom]
  | cons p ws ih =>
    obtain ⟨reg, val⟩ := p
    simp only [writeSeqFrom, i2c_reg_write_byte_dt, hwr, ne_eq, not_true_eq_false,
      if_false, ih]
    simp [okWrite]

theorem pollHistory_trace (bus : Bus) (j : Nat) (tr : List Event) :
    ∃ rs, pollHistory bus j tr = tr ++ rs ∧ writesOf rs = [] := by
  induction j generalizing tr with
  | zero => exact ⟨[], by simp [pollHistory], rfl⟩
  | succ n ih =>
    simp only [pollHistory, i2c_reg_read_byte_dt]
    obtain ⟨rs, h, hw⟩ := ih (tr ++ [Event.read MAX86150_REG_SYSTEM_CONTROL
      (bus.reg_read tr MAX86150_REG_SYSTEM_CONTROL).1
      (bus.reg_read tr MAX86150_REG_SYSTEM_CONTROL).2])
    refine ⟨[Event.read MAX86150_REG_SYSTEM_CONTROL
      (bus.reg_read tr MAX86150_REG_SYSTEM_CONTROL).1
      (bus.reg_read tr MAX86150_REG_SYSTEM_CONTROL).2] ++ rs, ?_, ?_⟩
    · rw [h, List.append_assoc]
    · rw [writesOf_append, hw, writesOf_read]; rfl

/-- If the reads succeed and the poll after `m` earlier polls reads the reset
bit clear, the poll loop ends with `0` after at most `m + 1` polls, given
more than `m` fuel. -/
theorem resetPoll_terminates (bus : Bus)
    (hrd : ∀ h reg, (bus.reg_read h reg).1 = 0) (m : Nat) :
    ∀ (tr : List Event) (fuel : Nat), m < fuel →
      (bus.reg_read (pollHistory bus m tr) MAX86150_REG_SYSTEM_CONTROL).2 &&&
        MAX86150_SYS_CTRL_RESET_MASK = 0 →
      ∃ j, j ≤ m ∧ resetPoll bus fuel tr = (some 0, pollHistory bus (j + 1) tr) := by
  induction m with
  | zero =>
    intro tr fuel hf hclear
    obtain ⟨f, rfl⟩ := Nat.exists_eq_succ_of_ne_zero (by omega : fuel ≠ 0)
    refine ⟨0, le_refl _, ?_⟩
    simp only [pollHistory] at hclear
    simp [resetPoll, i2c_reg_read_byte_dt, hrd, hclear, pollHistory]
  | succ m ih =>
    intro tr fuel hf hclear
    obtain ⟨f, rfl⟩ := Nat.exists_eq_succ_of_ne_zero (by omega : fuel ≠ 0)
    by_cases hnow : (bus.reg_read tr MAX86150_REG_SYSTEM_CONTROL).2 &&&
        MAX86150_SYS_CTRL_RESET_MASK = 0
    · refine ⟨0, Nat.zero_le _, ?_⟩
      simp [resetPoll, i2c_reg_read_byte_dt, hrd, hnow, pollHistory]
    · obtain ⟨j, hj, h⟩ := ih (i2c_reg_read_byte_dt bus tr MAX86150_REG_SYSTEM_CONTROL).2.2
        f (by omega) hclear
      refine ⟨j + 1, by omega, ?_⟩
      rw [resetPoll]
      simp only [i2c_reg_read_byte_dt, hrd, ne_eq, not_true_eq_false, if_false, hnow,
        not_false_eq_true, if_true]
      simp only [i2c_reg_read_byte_dt, hrd] at h
      rw [h]
      simp [pollHistory, i2c_reg_read_byte_dt, hrd]

theorem nibble_pair_fits : ∀ a < 16, ∀ b < 16, ((a <<< 4) ||| b) % 256 = (a <<< 4) ||| b := by
  decide

theorem two_bit_pair_fits : ∀ a < 4, ∀ b < 4, ((a <<< 2) ||| b) % 256 = (a <<< 2) ||| b := by
  decide

/-- For a valid configuration no value of the write sequence is changed by
the narrowing to eight bits. -/
theorem initWriteSeq_valid (c : max86150_config) (hvalid : c.Valid) :
    initWriteSeq c =
      [ (0x0D, 0x01), (0x08, 0x10),
        (0x09, (c.slot 1 <<< 4) ||| c.slot 0),
        (0x0A, (c.slot 3 <<< 4) ||| c.slot 2),
        (0x0E, (c.adc_range <<< 6) ||| (c.ppg_sample_rate <<< 2) ||| c.ppg_pulse_width),
        (0x0F, c.ppg_sample_avg), (0x11, c.IR_LED_PA), (0x12, c.RED_LED_PA),
        (0x14, (c.Red_current <<< 2) ||| c.IR_current),
        (0x15, c.PILOT_LED_PA), (0x3C, c.ECG_sample_rate),
        (0x3E, (c.ECG_PGA_gain <<< 2) ||| c.ECG_IA_gain),
        (0x0D, 0x04) ] := by
  obtain ⟨hs, h1, h2, h3, h4, h5, h6, h7, h8, h9, h10, h11, h12⟩ := hvalid
  unfold initWriteSeq
  rw [nibble_pair_fits _ (hs 1) _ (hs 0), nibble_pair_fits _ (hs 3) _ (hs 2),
    (ppg_config1_roundtrip _ h1 _ h2 _ h3).1, Nat.mod_eq_of_lt h4, Nat.mod_eq_of_lt h5,
    Nat.mod_eq_of_lt h6, two_bit_pair_fits _ h7 _ h8, Nat.mod_eq_of_lt h9,
    Nat.mod_eq_of_lt h10, two_bit_pair_fits _ h11 _ h12]

/-- C6: for a valid configuration, on a ready bus whose identity register
reads `0x1E`, on which every read and write succeeds and on which the reset
poll, after `m` earlier polls, reads the reset bit clear, `max86150_init`
returns success whenever it is given more than `m` polls, every write it
issued was accepted, and the register writes it issued are exactly the
thirteen listed, in this order. -/
theorem init_success_write_sequence (bus : Bus) (tr : List Event)
    (config : max86150_config) (data : max86150_data) (m : Nat)
    (hvalid : config.Valid)
    (hready : device_is_ready bus = true)
    (hid : bus.reg_read tr MAX86150_REG_ID = (0, MAX86150_PART_ID))
    (hwr : ∀ h reg val, bus.reg_write h reg val = 0)
    (hrd : ∀ h reg, (bus.reg_read h reg).1 = 0)
    (hclear : (bus.reg_read
        (pollHistory bus m (tr ++ [Event.read 0xFF 0 0x1E, Event.write 0x0D 0x01 0]))
        MAX86150_REG_SYSTEM_CONTROL).2 &&& MAX86150_SYS_CTRL_RESET_MASK = 0) :
    ∀ fuel, m < fuel →
      (max86150_init bus tr config data fuel).ret = some 0 ∧
      (∀ w ∈ writesOf (issued tr (max86150_init bus tr config data fuel)), w.2.2 = 0) ∧
      regValsOf (issued tr (max86150_init bus tr config data fuel)) =
        [ (0x0D, 0x01), (0x08, 0x10),
          (0x09, (config.slot 1 <<< 4) ||| config.slot 0),
          (0x0A, (config.slot 3 <<< 4) ||| config.slot 2),
          (0x0E, (config.adc_range <<< 6) ||| (config.ppg_sample_rate <<< 2) |||
            config.ppg_pulse_width),
          (0x0F, config.ppg_sample_avg),
          (0x11, config.IR_LED_PA),
          (0x12, config.RED_LED_PA),
          (0x14, (config.Red_current <<< 2) ||| config.IR_current),
          (0x15, config.PILOT_LED_PA),
          (0x3C, config.ECG_sample_rate),
          (0x3E, (config.ECG_PGA_gain <<< 2) ||| config.ECG_IA_gain),
          (0x0D, 0x04) ] := by
  intro fuel hfuel
  obtain ⟨j, -, hpoll⟩ := resetPoll_terminates bus hrd m
    (tr ++ [Event.read 0xFF 0 0x1E, Event.write 0x0D 0x01 0]) fuel hfuel hclear
  obtain ⟨rs, hrs, hrsw⟩ := pollHistory_trace bus (j + 1)
    (tr ++ [Event.read 0xFF 0 0x1E, Event.write 0x0D 0x01 0])
  have hrun : max86150_init bus tr config data fuel =
      ⟨some 0, tr ++ ([Event.read 0xFF 0 0x1E, Event.write 0x0D 0x01 0] ++ rs ++
        (configWrites config).map okWrite),
        { data with num_channels := countChannels config }⟩ := by
    rw [max86150_init_eq]
    simp only [hready, i2c_reg_read_byte_dt, hid, i2c_reg_write_byte_dt, hwr]
    have e : tr ++ [Event.read MAX86150_REG_ID 0 MAX86150_PART_ID] ++
        [Event.write MAX86150_REG_SYSTEM_CONTROL (MAX86150_SYS_CTRL_RESET_MASK % 256) 0] =
        tr ++ [Event.read 0xFF 0 0x1E, Event.write 0x0D 0x01 0] := by simp
    rw [e, hpoll, hrs, writeSeqFrom_all_ok bus hwr]
    simp [initFinish]
  have hw : writesOf ([Event.read 0xFF 0 0x1E, Event.write 0x0D 0x01 0] ++ rs ++
      (configWrites config).map okWrite) = (initWriteSeq config).map accepted := by
    rw [writesOf_append, writesOf_append, hrsw, writesOf_okWrite, initWriteSeq_eq]
    simp [writesOf, accepted]
  rw [issued_eq tr _ _ (by rw [hrun])]
  refine ⟨by rw [hrun], ?_, ?_⟩
  · intro w hwm
    rw [hw, List.mem_map] at hwm
    obtain ⟨p, -, rfl⟩ := hwm
    rfl
  · unfold regValsOf
    rw [hw, regVals_accepted, initWriteSeq_valid config hvalid]

theorem init_success_write_sequence_witness :
    demoConfig.Valid ∧
    device_is_ready goodBus = true ∧
    goodBus.reg_read [] MAX86150_REG_ID = (0, MAX86150_PART_ID) ∧
    (∀ h reg val, goodBus.reg_write h reg val = 0) ∧
    (∀ h reg, (goodBus.reg_read h reg).1 = 0) ∧
    (goodBus.reg_read
        (pollHistory goodBus 1 ([] ++ [Event.read 0xFF 0 0x1E, Event.write 0x0D 0x01 0]))
        MAX86150_REG_SYSTEM_CONTROL).2 &&& MAX86150_SYS_CTRL_RESET_MASK = 0 ∧
    1 < 2 ∧
    (max86150_init goodBus [] demoConfig staleData 2).ret = some 0 ∧
    (∀ w ∈ writesOf (issued [] (max86150_init goodBus [] demoConfig staleData 2)),
      w.2.2 = 0) ∧
    regValsOf (issued [] (max86150_init goodBus [] demoConfig staleData 2)) =
      [ (0x0D, 0x01), (0x08, 0x10),
        (0x09, (demoConfig.slot 1 <<< 4) ||| demoConfig.slot 0),
        (0x0A, (demoConfig.slot 3 <<< 4) ||| demoConfig.slot 2),
        (0x0E, (demoConfig.adc_range <<< 6) ||| (demoConfig.ppg_sample_rate <<< 2) |||
          demoConfig.ppg_pulse_width),
        (0x0F, demoConfig.ppg_sample_avg),
        (0x11, demoConfig.IR_LED_PA),
        (0x12, demoConfig.RED_LED_PA),
        (0x14, (demoConfig.Red_current <<< 2) ||| demoConfig.IR_current),
        (0x15, demoConfig.PILOT_LED_PA),
        (0x3C, demoConfig.ECG_sample_rate),
        (0x3E, (demoConfig.ECG_PGA_gain <<< 2) ||| demoConfig.ECG_IA_gain),
        (0x0D, 0x04) ] :=
  ⟨by unfold max86150_config.Valid; decide, rfl, rfl,
    fun _ _ _ => by simp [goodBus, simBus],
    fun _ _ => by simp only [goodBus, simBus]; split_ifs <;> rfl,
    by decide, by decide,
    init_success_write_sequence goodBus [] demoConfig staleData 1
      (by unfold max86150_config.Valid; decide) rfl rfl
      (fun _ _ _ => by simp [goodBus, simBus])
      (fun _ _ => by simp only [goodBus, simBus]; split_ifs <;> rfl)
      (by decide) 2 (by decide)⟩


theorem getElem?_eq_some_getD (b : List Nat) (i : Nat) (h : i < b.length) :
    b[i]? = some (b.getD i 0) := by
  simp [List.getD_eq_getElem?_getD, List.getElem?_eq_getElem h]

theorem getD_lt_of_bytes (b : List Nat) (hbytes : ∀ x ∈ b, x < 256) (i : Nat) :
    b.getD i 0 < 256 := by
  by_cases h : i < b.length
  · rw [List.getD_eq_getElem _ _ h]
    exact hbytes _ (List.getElem_mem h)
  · rw [List.getD_eq_default _ _ (by omega)]
    decide

theorem pack_lt (b0 b1 b2 : Nat) (h0 : b0 < 256) (h1 : b1 < 256) (h2 : b2 < 256) :
    (b0 <<< 16) ||| (b1 <<< 8) ||| b2 < 2 ^ 32 := by
  have e0 : b0 <<< 16 = b0 * 65536 := by rw [Nat.shiftLeft_eq]
  have e1 : b1 <<< 8 = b1 * 256 := by rw [Nat.shiftLeft_eq]
  refine Nat.or_lt_two_pow (Nat.or_lt_two_pow ?_ ?_) ?_
  · rw [e0]; norm_num; omega
  · rw [e1]; norm_num; omega
  · norm_num; omega

/-- Invariant of the decoding loop, entered with `fifo_chan = ch` and
`i = 3 * ch` on a buffer of `3 * n` bytes with `n ≤ 4`: it ends, channels
`ch .. n-1` hold their decoded samples and all the others are untouched. -/
theorem decodeLoop_spec (b : List Nat) (n : Nat) (hn : n ≤ 4)
    (hlen : b.length = 3 * n) (hbytes : ∀ x ∈ b, x < 256) :
    ∀ (steps ch : Nat) (cd : Fin 4 → Nat), ch ≤ n → n - ch < steps →
      ∃ cd2, decodeLoop b (3 * n) steps (3 * ch) ch cd = some cd2 ∧
        (∀ k (hk : k < 4), ch ≤ k → k < n → cd2 ⟨k, hk⟩ = sampleAt b k) ∧
        (∀ k (hk : k < 4), (k < ch ∨ n ≤ k) → cd2 ⟨k, hk⟩ = cd ⟨k, hk⟩) := by
  intro steps
  induction steps with
  | zero => intro ch cd _ h; omega
  | succ s ih =>
    intro ch cd hch hsteps
    by_cases hlt : ch < n
    · have hc4 : ch < 4 := by omega
      have h0 := getElem?_eq_some_getD b (3 * ch) (by omega)
      have h1 := getElem?_eq_some_getD b (3 * ch + 1) (by omega)
      have h2 := getElem?_eq_some_getD b (3 * ch + 2) (by omega)
      have hmod : sampleAt b ch % 2 ^ 32 = sampleAt b ch :=
        Nat.mod_eq_of_lt (pack_lt _ _ _ (getD_lt_of_bytes b hbytes _)
          (getD_lt_of_bytes b hbytes _) (getD_lt_of_bytes b hbytes _))
      obtain ⟨cd2, hrun, hA, hB⟩ := ih (ch + 1)
        (Function.update cd ⟨ch, hc4⟩ (sampleAt b ch)) (by omega) (by omega)
      refine ⟨cd2, ?_, ?_, ?_⟩
      · rw [decodeLoop]
        have hi : 3 * ch < 3 * n := by omega
        simp only [hi, if_true, h0, h1, h2, hc4, dite_true]
        have e : 3 * ch + 3 = 3 * (ch + 1) := by ring
        rw [e]
        unfold sampleAt at hmod
        rw [hmod]
        exact hrun
      · intro k hk hck hkn
        by_cases hkc : k = ch
        · subst hkc
          rw [hB k hk (Or.inl (by omega))]
          simp
        · exact hA k hk (by omega) hkn
      · intro k hk hor
        rw [hB k hk (by omega)]
        have : (⟨k, hk⟩ : Fin 4) ≠ ⟨ch, hc4⟩ := by
          intro h; have := Fin.mk.inj h; omega
        simp [Function.update, this]
    · have hcn : ch = n := by omega
      subst hcn
      refine ⟨cd, ?_, ?_, ?_⟩
      · rw [decodeLoop]; simp
      · intro k hk h1 h2; omega
      · intro k hk _; rfl

/-- C1: for a device state with `num_channels = n ≤ 4` and a burst `b` of
`3n` bytes that the bus returns successfully from the FIFO data register
(`0x07`), `max86150_fetch_data` returns success after that single burst read
of `3n` bytes, and sets `channel_data[k] = (b[3k] << 16) | (b[3k+1] << 8) |
b[3k+2]` for every `k < n`, with no mask applied; `num_channels` and the
entries `k ≥ n` are unchanged. -/
theorem fetch_decodes_channels (bus : Bus) (tr : List Event)
    (config : max86150_config) (data : max86150_data) (n : Nat) (b : List Nat)
    (hn : n ≤ 4) (hnum : data.num_channels = n) (hlen : b.length = 3 * n)
    (hbytes : ∀ x ∈ b, x < 256)
    (hburst : bus.burst_read tr MAX86150_REG_FIFO_DATA (3 * n) = (0, b)) :
    ∃ r, max86150_fetch_data bus tr config data = some r ∧
      r.ret = some 0 ∧
      r.trace = tr ++ [Event.burst 0x07 (3 * n) 0 b] ∧
      r.data.num_channels = n ∧
      (∀ k (hk : k < 4), k < n →
        r.data.channel_data ⟨k, hk⟩ =
          (b.getD (3 * k) 0 <<< 16) ||| (b.getD (3 * k + 1) 0 <<< 8) |||
            b.getD (3 * k + 2) 0) ∧
      (∀ k (hk : k < 4), n ≤ k →
        r.data.channel_data ⟨k, hk⟩ = data.channel_data ⟨k, hk⟩) := by
  obtain ⟨cd2, hrun, hA, hB⟩ := decodeLoop_spec b n hn hlen hbytes (3 * n + 1) 0
    data.channel_data (Nat.zero_le _) (by omega)
  refine ⟨⟨some 0, tr ++ [Event.burst 0x07 (3 * n) 0 b],
    { data with channel_data := cd2 }⟩, ?_, rfl, rfl, hnum, ?_, ?_⟩
  · simp only [max86150_fetch_data, i2c_burst_read_dt, hnum, hburst]
    simp only [Nat.mul_zero] at hrun
    simp [hrun]
  · intro k hk hkn
    exact hA k hk (Nat.zero_le _) hkn
  · intro k hk hkn
    exact hB k hk (Or.inr hkn)

theorem fetch_decodes_channels_witness :
    2 ≤ 4 ∧ staleData.num_channels = 2 ∧
    [0x01, 0x02, 0x03, 0xFF, 0xFE, 0xFD].length = 3 * 2 ∧
    (∀ x ∈ [0x01, 0x02, 0x03, 0xFF, 0xFE, 0xFD], x < 256) ∧
    goodBus.burst_read [] MAX86150_REG_FIFO_DATA (3 * 2) =
      (0, [0x01, 0x02, 0x03, 0xFF, 0xFE, 0xFD]) ∧
    (∃ r, max86150_fetch_data goodBus [] demoConfig staleData = some r ∧
      r.ret = some 0 ∧
      r.trace = [] ++ [Event.burst 0x07 (3 * 2) 0 [0x01, 0x02, 0x03, 0xFF, 0xFE, 0xFD]] ∧
      r.data.num_channels = 2 ∧
      (∀ k (hk : k < 4), k < 2 →
        r.data.channel_data ⟨k, hk⟩ =
          ([0x01, 0x02, 0x03, 0xFF, 0xFE, 0xFD].getD (3 * k) 0 <<< 16) |||
            ([0x01, 0x02, 0x03, 0xFF, 0xFE, 0xFD].getD (3 * k + 1) 0 <<< 8) |||
            [0x01, 0x02, 0x03, 0xFF, 0xFE, 0xFD].getD (3 * k + 2) 0) ∧
      (∀ k (hk : k < 4), 2 ≤ k →
        r.data.channel_data ⟨k, hk⟩ = staleData.channel_data ⟨k, hk⟩)) ∧
    (max86150_fetch_data goodBus [] demoConfig staleData).map
        (fun r => (r.ret, List.ofFn r.data.channel_data)) =
      some (some 0, [0x010203, 0xFFFEFD, 33, 44]) :=
  ⟨by decide, rfl, rfl, by decide, rfl,
    fetch_decodes_channels goodBus [] demoConfig staleData 2
      [0x01, 0x02, 0x03, 0xFF, 0xFE, 0xFD] (by decide) rfl rfl (by decide) rfl,
    by decide⟩

theorem countChannels_idle (c : max86150_config) (h : ∀ i, c.slot i = 0) :
    countChannels c = 0 := by
  have e : List.finRange 4 = [0, 1, 2, 3] := by decide
  simp [countChannels, e, h]

theorem init_ok_data (bus : Bus) (tr : List Event) (config : max86150_config)
    (data : max86150_data) (fuel : Nat)
    (hok : (max86150_init bus tr config data fuel).ret = some 0) :
    (max86150_init bus tr config data fuel).data =
      { data with num_channels := countChannels config } := by
  obtain ⟨evs, -, h | h⟩ := init_shape bus tr config data fuel
  · obtain ⟨n, -, -, h1, -, -⟩ := h
    exact (h1 hok).2
  · obtain ⟨j, reg, val, rc, -, -, -, -, h3, -⟩ := h
    rw [hok] at h3
    cases h3

/-- C10: for a configuration whose four slots are all disabled, a successful
`max86150_init` leaves `num_channels = 0` and `channel_data` as it was.  The
`max86150_fetch_data` that follows asks the bus for one burst read of exactly
0 bytes from the FIFO data register (`0x07`) and for nothing else; whenever
the bus answers that read with return code 0 it returns success; and in
either case it hands the device state back unchanged, so all four
`channel_data` entries are still the ones from before the init. -/
theorem init_idle_then_fetch (bus : Bus) (tr : List Event)
    (config : max86150_config) (data : max86150_data) (fuel : Nat)
    (hslots : ∀ i, config.slot i = 0)
    (hok : (max86150_init bus tr config data fuel).ret = some 0) :
    (max86150_init bus tr config data fuel).data.num_channels = 0 ∧
    (max86150_init bus tr config data fuel).data.channel_data = data.channel_data ∧
    ∃ r, max86150_fetch_data bus (max86150_init bus tr config data fuel).trace config
        (max86150_init bus tr config data fuel).data = some r ∧
      r.trace = (max86150_init bus tr config data fuel).trace ++
        [Event.burst 0x07 0
          (bus.burst_read (max86150_init bus tr config data fuel).trace 0x07 0).1
          (bus.burst_read (max86150_init bus tr config data fuel).trace 0x07 0).2] ∧
      ((bus.burst_read (max86150_init bus tr config data fuel).trace 0x07 0).1 = 0 →
        r.ret = some 0) ∧
      r.data.num_channels = 0 ∧
      r.data.channel_data = data.channel_data := by
  have hd := init_ok_data bus tr config data fuel hok
  rw [countChannels_idle config hslots] at hd
  rw [hd]
  refine ⟨rfl, rfl, ?_⟩
  simp only [max86150_fetch_data, i2c_burst_read_dt, Nat.mul_zero]
  by_cases hrc : (bus.burst_read (max86150_init bus tr config data fuel).trace
      MAX86150_REG_FIFO_DATA 0).1 = 0
  · simp only [hrc, ne_eq, not_true_eq_false, if_false, decodeLoop, Nat.lt_irrefl]
    exact ⟨_, rfl, rfl, fun _ => rfl, rfl, rfl⟩
  · simp only [ne_eq, hrc, not_false_eq_true, if_true]
    exact ⟨_, rfl, rfl, fun h => h.elim, rfl, rfl⟩

theorem init_idle_then_fetch_witness :
    (∀ i, idleConfig.slot i = 0) ∧
    (max86150_init goodBus [] idleConfig staleData 5).ret = some 0 ∧
    ((max86150_init goodBus [] idleConfig staleData 5).data.num_channels = 0 ∧
    (max86150_init goodBus [] idleConfig staleData 5).data.channel_data =
      staleData.channel_data ∧
    ∃ r, max86150_fetch_data goodBus (max86150_init goodBus [] idleConfig staleData 5).trace
        idleConfig (max86150_init goodBus [] idleConfig staleData 5).data = some r ∧
      r.trace = (max86150_init goodBus [] idleConfig staleData 5).trace ++
        [Event.burst 0x07 0
          (goodBus.burst_read (max86150_init goodBus [] idleConfig staleData 5).trace 0x07 0).1
          (goodBus.burst_read (max86150_init goodBus [] idleConfig staleData 5).trace 0x07 0).2] ∧
      ((goodBus.burst_read (max86150_init goodBus [] idleConfig staleData 5).trace 0x07 0).1 = 0 →
        r.ret = some 0) ∧
      r.data.num_channels = 0 ∧
      r.data.channel_data = staleData.channel_data) ∧
    goodBus.burst_read (max86150_init goodBus [] idleConfig staleData 5).trace 0x07 0 =
      (0, []) ∧
    (max86150_fetch_data goodBus (max86150_init goodBus [] idleConfig staleData 5).trace
        idleConfig (max86150_init goodBus [] idleConfig staleData 5).data).map
      (fun r => (r.ret,
        issued (max86150_init goodBus [] idleConfig staleData 5).trace r,
        List.ofFn r.data.channel_data, r.data.num_channels)) =
      some (some 0, [Event.burst 0x07 0 0 []], [11, 22, 33, 44], 0) :=
  ⟨fun _ => rfl, rfl,
    init_idle_then_fetch goodBus [] idleConfig staleData 5 (fun _ => rfl) rfl,
    rfl, by decide⟩

/-- Each of the thirteen positions of the write sequence can be the one that
fails: on `rejectNthBus (k + 1)` the write at index `k` of the run is the
rejected one. -/
theorem every_write_position_can_fail :
    ∀ k < 13,
      ((writesOf (issued [] (max86150_init (rejectNthBus (k + 1)) [] demoConfig
        staleData 1)))[k]?).map (fun w => w.2.2) = some (-5) := by
  decide

end MAX86150
